import Mathlib

/-!
# Audit Forge — verification of the crawl → analyze → score → report pipeline

Shallow embedding of the pipeline of the Audit Forge repository:

* `crawlSite` (server/crawler.ts): bounded breadth-first crawl with
  domain scoping and link classification.  Network fetches, cheerio anchor
  extraction and WHATWG URL resolution are external effects; they are
  abstracted as the fields of a `Web` environment, and the `while` loop is
  embedded as a fuel-indexed recursion (`crawlLoop`).
* `calculatePageScores`, `calculateAuditScores` (server/scoring.ts):
  severity-weighted per-page category scores and depth-weighted audit
  aggregation.  JavaScript numbers are modelled as `ℚ`; `Math.round` is
  `jsRound` (floor of x + 1/2, which is the JS round-half-up behaviour).
* `analyzePerformance` / `analyzePage` (server/analyzers.ts): the PageSpeed
  call is abstracted as an `Except`-valued argument; the four markup
  analyzers, which are pure functions of the HTML, are abstracted as fields
  of an `AnalyzerEnv` since no claim depends on their internals.
* `startAudit` (server/runner.ts): the orchestrator, embedded as a function
  returning the sequence of audit records written to the store.
-/

namespace AuditForge

/-! ## Data model (types.ts) -/

inductive Severity
  | critical
  | major
  | minor
deriving DecidableEq, Repr

inductive Category
  | seo
  | performance
  | accessibility
  | content
  | uxDesign
deriving DecidableEq, Repr

structure Issue where
  id : String
  category : Category
  code : String
  severity : Severity
  message : String
  pageUrl : Option String
deriving DecidableEq, Repr

structure Scores where
  overall : ℚ
  seo : ℚ
  performance : ℚ
  accessibility : ℚ
  content : ℚ
  uxDesign : ℚ
deriving DecidableEq, Repr

structure ByCategory where
  seo : Nat
  performance : Nat
  accessibility : Nat
  content : Nat
  uxDesign : Nat
deriving DecidableEq, Repr

structure IssuesSummary where
  critical : Nat
  major : Nat
  minor : Nat
  byCategory : ByCategory
deriving DecidableEq, Repr

/-- Crawler output record (`PageResult` in types.ts). -/
structure PageResult where
  url : String
  statusCode : Nat
  html : String
  depth : Nat
  internalLinks : List String
  externalLinks : List String
  error : Option String
deriving DecidableEq, Repr

structure SeoData where
  title : String
  metaDescription : Option String
  h1Text : String
  wordCount : Nat
  imagesWithoutAlt : Nat
deriving DecidableEq, Repr

/-- `PerformanceData` from types.ts: every field is optional; the
error branch of the analyzer fills only `error`. -/
structure PerformanceData where
  performanceScore : Option ℚ
  firstContentfulPaintMs : Option ℚ
  largestContentfulPaintMs : Option ℚ
  totalBlockingTimeMs : Option ℚ
  cumulativeLayoutShift : Option ℚ
  strategy : Option String
  error : Option String
deriving DecidableEq, Repr

structure AccessibilityData where
  hasLangAttribute : Bool
  hasMainLandmark : Bool
  labeledInputs : Nat
  unlabeledInputs : Nat
deriving DecidableEq, Repr

structure ContentStructureData where
  pageType : String
  internalLinkCount : Nat
  externalLinkCount : Nat
  brokenLinks : List String
  inboundLinks : Nat
  outboundLinks : Nat
deriving DecidableEq, Repr

structure DesignUxData where
  hasNavigation : Bool
  primaryCtaFound : Bool
  primaryCtaAboveFold : Bool
  fontCount : Nat
  colorCount : Nat
  hasViewportMeta : Bool
deriving DecidableEq, Repr

/-- Post-analysis page record (`PageData` in types.ts); the optional
analyzer snapshots are `none` when the analyzer did not run (and `none`
also models the explicit `null` of `performanceData`, which behaves
identically everywhere it is read). -/
structure PageData where
  id : String
  url : String
  statusCode : Nat
  depth : Nat
  scores : Scores
  issues : List Issue
  seoData : Option SeoData
  performanceData : Option PerformanceData
  accessibilityData : Option AccessibilityData
  contentData : Option ContentStructureData
  designUxData : Option DesignUxData
deriving DecidableEq, Repr

inductive AuditStatus
  | queued
  | running
  | completed
  | failed
deriving DecidableEq, Repr

/-- The persisted audit record (`Audit` in types.ts), restricted to the
fields the orchestrator reads or writes. -/
structure StoredAudit where
  id : String
  url : String
  status : AuditStatus
  createdAt : String
  completedAt : Option String
  scores : Scores
  issuesSummary : IssuesSummary
  pages : List PageData
  reportMarkdown : Option String
deriving DecidableEq, Repr

/-! ## Scoring (server/scoring.ts) -/

/-- JavaScript `Math.round`: round half toward positive infinity. -/
def jsRound (x : ℚ) : ℤ := ⌊x + 1 / 2⌋

/-- `clampScore` from scoring.ts: `Math.max(0, Math.min(100, Math.round(score)))`. -/
def clampScore (score : ℚ) : ℚ := max 0 (min 100 ((jsRound score : ℤ) : ℚ))

/-- `severityPenalty` table from scoring.ts. -/
def severityPenalty : Severity → ℚ
  | .critical => 25
  | .major => 15
  | .minor => 7

/-- `scoreCategory` from scoring.ts: base minus the summed severity
penalties of the category's issues minus the extra penalty, clamped. -/
def scoreCategory (base : ℚ) (issues : List Issue) (category : Category)
    (extraPenalty : ℚ) : ℚ :=
  let totalPenalty :=
    ((issues.filter fun issue => decide (issue.category = category)).map
      fun issue => severityPenalty issue.severity).foldl (· + ·) 0
  clampScore (base - totalPenalty - extraPenalty)

/-- `scorePerformance` from scoring.ts: with an external PageSpeed score the
issue penalties are halved and subtracted from that score; otherwise the
fixed base 80 with full penalties is used. -/
def scorePerformance (performanceData : Option PerformanceData)
    (issues : List Issue) : ℚ :=
  match performanceData with
  | some pd =>
    match pd.performanceScore with
    | some ps =>
      let penalty :=
        ((issues.filter fun i => decide (i.category = Category.performance)).map
          fun i => severityPenalty i.severity / 2).foldl (· + ·) 0
      clampScore (ps - penalty)
    | none => scoreCategory 80 issues .performance 0
  | none => scoreCategory 80 issues .performance 0

/-- `calculatePageScores` from scoring.ts.  The JS truthiness guards
(`seoData?.wordCount && ...`, `accessibilityData?.unlabeledInputs`) are
embedded as explicit `≠ 0` tests. -/
def calculatePageScores (page : PageData) : Scores :=
  let issues := page.issues
  let seoPenalty : ℚ :=
    match page.seoData with
    | some s => if s.wordCount ≠ 0 ∧ s.wordCount < 120 then 5 else 0
    | none => 0
  let seo := scoreCategory 100 issues .seo seoPenalty
  let accessibilityPenalty : ℚ :=
    match page.accessibilityData with
    | some a => if a.unlabeledInputs ≠ 0 then 5 else 0
    | none => 0
  let accessibility := scoreCategory 100 issues .accessibility accessibilityPenalty
  let contentPenalty : ℚ :=
    (match page.contentData with
     | some c => if c.internalLinkCount = 0 then (10 : ℚ) else 0
     | none => 0) +
    (match page.contentData with
     | some c => if c.brokenLinks.length > 0 then (5 : ℚ) else 0
     | none => 0) +
    (match page.contentData with
     | some c => if c.inboundLinks = 0 ∧ page.depth > 0 then (10 : ℚ) else 0
     | none => 0)
  let content := scoreCategory 95 issues .content contentPenalty
  let uxPenalty : ℚ :=
    match page.designUxData with
    | some d => if ¬ d.hasNavigation then 10 else 0
    | none => 0
  let uxDesign := scoreCategory 100 issues .uxDesign uxPenalty
  let performance := scorePerformance page.performanceData issues
  let overall := clampScore ((seo + accessibility + content + uxDesign + performance) / 5)
  { overall := overall, seo := seo, performance := performance,
    accessibility := accessibility, content := content, uxDesign := uxDesign }

def zeroScores : Scores :=
  { overall := 0, seo := 0, performance := 0, accessibility := 0, content := 0, uxDesign := 0 }

def zeroSummary : IssuesSummary :=
  { critical := 0, major := 0, minor := 0,
    byCategory := { seo := 0, performance := 0, accessibility := 0, content := 0, uxDesign := 0 } }

/-- One iteration of the accumulating `for` loop of `calculateAuditScores`:
add the page's scores weighted by `1 / (1 + depth)` and accumulate the
weight. -/
def auditStep (acc : Scores × ℚ) (page : PageData) : Scores × ℚ :=
  let weight : ℚ := 1 / (1 + (page.depth : ℚ))
  ({ overall := acc.1.overall + page.scores.overall * weight,
     seo := acc.1.seo + page.scores.seo * weight,
     performance := acc.1.performance + page.scores.performance * weight,
     accessibility := acc.1.accessibility + page.scores.accessibility * weight,
     content := acc.1.content + page.scores.content * weight,
     uxDesign := acc.1.uxDesign + page.scores.uxDesign * weight },
   acc.2 + weight)

/-- The accumulating `for` loop of `calculateAuditScores`: weighted score
totals together with the total weight. -/
def auditFold (pages : List PageData) : Scores × ℚ :=
  pages.foldl auditStep (zeroScores, 0)

/-- The issue tally of `calculateAuditScores`: filter + length over the
flattened issue list, exactly as in the source. -/
def tallyIssues (allIssues : List Issue) : IssuesSummary :=
  { critical := (allIssues.filter fun i => decide (i.severity = Severity.critical)).length,
    major := (allIssues.filter fun i => decide (i.severity = Severity.major)).length,
    minor := (allIssues.filter fun i => decide (i.severity = Severity.minor)).length,
    byCategory :=
      { seo := (allIssues.filter fun i => decide (i.category = Category.seo)).length,
        performance := (allIssues.filter fun i => decide (i.category = Category.performance)).length,
        accessibility := (allIssues.filter fun i => decide (i.category = Category.accessibility)).length,
        content := (allIssues.filter fun i => decide (i.category = Category.content)).length,
        uxDesign := (allIssues.filter fun i => decide (i.category = Category.uxDesign)).length } }

/-- `calculateAuditScores` from scoring.ts: depth-weighted means of the page
scores plus the flat issue tally. -/
def calculateAuditScores (pages : List PageData) : Scores × IssuesSummary :=
  if pages = [] then (zeroScores, zeroSummary)
  else
    let totals := auditFold pages
    let totalWeight := totals.2
    let scores : Scores :=
      { overall := clampScore (totals.1.overall / totalWeight),
        seo := clampScore (totals.1.seo / totalWeight),
        performance := clampScore (totals.1.performance / totalWeight),
        accessibility := clampScore (totals.1.accessibility / totalWeight),
        content := clampScore (totals.1.content / totalWeight),
        uxDesign := clampScore (totals.1.uxDesign / totalWeight) }
    (scores, tallyIssues (pages.flatMap fun p => p.issues))

/-! ## Analyzers (server/analyzers.ts) -/

/-- `createIssue` from analyzers.ts: issue ids are assigned later by the
orchestrator. -/
def createIssue (category : Category) (code : String) (severity : Severity)
    (message : String) (pageUrl : Option String) : Issue :=
  { id := "", category := category, code := code, severity := severity,
    message := message, pageUrl := pageUrl }

/-- The parts of a PageSpeed Insights response read by `analyzePerformance`:
`lighthouseResult.categories.performance.score` (a 0–1 value, `none` when the
category is missing) and the four `numericValue` audit metrics. -/
structure PsiResponse where
  perfScore : Option ℚ
  firstContentfulPaintMs : Option ℚ
  largestContentfulPaintMs : Option ℚ
  totalBlockingTimeMs : Option ℚ
  cumulativeLayoutShift : Option ℚ
deriving DecidableEq, Repr

/-- JS truthiness of an optional number (`undefined`, `null` and `0` are
falsy). -/
def numTruthy : Option ℚ → Bool
  | some v => v ≠ 0
  | none => false

/-- `analyzePerformance` from analyzers.ts.  The environment is explicit:
`apiKey` is `process.env.PAGESPEED_API_KEY` and `psiCall` is the outcome of
the axios request to the PageSpeed endpoint (`Except.error` models a thrown
request, the numeric interpolation of the messages is abstracted away). -/
def analyzePerformance (apiKey : Option String) (psiCall : Except String PsiResponse)
    (url : String) : Option PerformanceData × List Issue :=
  match apiKey with
  | none =>
    (none,
     [createIssue .performance "PERFORMANCE_DATA_UNAVAILABLE" .minor
        "PageSpeed API key not configured; using placeholder score" (some url)])
  | some _ =>
    match psiCall with
    | .error msg =>
      (some { performanceScore := none, firstContentfulPaintMs := none,
              largestContentfulPaintMs := none, totalBlockingTimeMs := none,
              cumulativeLayoutShift := none, strategy := none, error := some msg },
       [createIssue .performance "PERFORMANCE_DATA_UNAVAILABLE" .minor
          "Failed to retrieve PageSpeed data" (some url)])
    | .ok resp =>
      let performanceScore : ℚ := ((jsRound ((resp.perfScore.getD 0) * 100) : ℤ) : ℚ)
      let lcpIssues :=
        if numTruthy resp.largestContentfulPaintMs ∧
            (resp.largestContentfulPaintMs.getD 0) > 4000 then
          [createIssue .performance "SLOW_LCP_MOBILE" .critical
             "LCP is over 4s on mobile" (some url)]
        else []
      let tbtIssues :=
        if numTruthy resp.totalBlockingTimeMs ∧
            (resp.totalBlockingTimeMs.getD 0) > 600 then
          [createIssue .performance "HIGH_TBT" .major
             "Total blocking time is over 600ms" (some url)]
        else []
      let poorIssues :=
        if performanceScore < 50 then
          [createIssue .performance "POOR_PERFORMANCE_SCORE" .critical
             "Performance score is below 50/100" (some url)]
        else []
      (some { performanceScore := some performanceScore,
              firstContentfulPaintMs := resp.firstContentfulPaintMs,
              largestContentfulPaintMs := resp.largestContentfulPaintMs,
              totalBlockingTimeMs := resp.totalBlockingTimeMs,
              cumulativeLayoutShift := resp.cumulativeLayoutShift,
              strategy := some "mobile", error := none },
       lcpIssues ++ tbtIssues ++ poorIssues)

/-- Combined analyzer output (`AnalyzerOutput` in analyzers.ts). -/
structure AnalyzerOutput where
  issues : List Issue
  seoData : Option SeoData
  performanceData : Option PerformanceData
  accessibilityData : Option AccessibilityData
  contentData : Option ContentStructureData
  designUxData : Option DesignUxData
deriving DecidableEq, Repr

/-- Environment of `analyzePage`: the four markup analyzers are pure
functions of the HTML and URL (their cheerio-based internals are abstracted;
`contentStructure` also sees the whole `PageResult` because it reads the
link lists and probes link liveness), plus the PageSpeed configuration. -/
structure AnalyzerEnv where
  seo : String → String → SeoData × List Issue
  accessibility : String → String → AccessibilityData × List Issue
  designUx : String → String → DesignUxData × List Issue
  contentStructure : PageResult → ContentStructureData × List Issue
  apiKey : Option String
  psiCall : String → Except String PsiResponse

/-- `analyzePage` from analyzers.ts: empty markup short-circuits to a single
critical content `PAGE_UNREACHABLE` issue with no snapshots; otherwise the
five analyzers run (performance only at depth 0) and their issues are
concatenated in source order (seo, performance, accessibility, content,
ux). -/
def analyzePage (env : AnalyzerEnv) (page : PageResult) : AnalyzerOutput :=
  if page.html = "" then
    { issues := [createIssue .content "PAGE_UNREACHABLE" .critical
        "Page could not be retrieved" (some page.url)],
      seoData := none, performanceData := none, accessibilityData := none,
      contentData := none, designUxData := none }
  else
    let seo := env.seo page.html page.url
    let accessibility := env.accessibility page.html page.url
    let ux := env.designUx page.html page.url
    let content := env.contentStructure page
    let perf :=
      if page.depth = 0 then analyzePerformance env.apiKey (env.psiCall page.url) page.url
      else (none, [])
    { issues := seo.2 ++ perf.2 ++ accessibility.2 ++ content.2 ++ ux.2,
      seoData := some seo.1,
      performanceData := perf.1,
      accessibilityData := some accessibility.1,
      contentData := some content.1,
      designUxData := some ux.1 }

/-! ## Crawler (server/crawler.ts) -/

structure QueueItem where
  url : String
  depth : Nat
deriving DecidableEq, Repr

/-- The parts of an axios response read by the crawler: status, whether the
content type includes `text/html`, whether the body arrived as a string, and
the body itself. -/
structure HttpResponse where
  status : Nat
  contentTypeHtml : Bool
  bodyIsString : Bool
  body : String
deriving DecidableEq, Repr

/-- Environment of the crawl: `fetch` models the axios GET (an `error`
models a thrown request — network failure or timeout), `anchors` models
cheerio extraction of the `href` attributes of anchor elements, `resolve`
models `new URL(href, base).href` and `hostOf` models
`new URL(u).hostname`, each `none` when the constructor throws. -/
structure Web where
  fetch : String → Except String HttpResponse
  anchors : String → List String
  resolve : String → String → Option String
  hostOf : String → Option String

/-- Whitespace trim over character lists (the JS `String.prototype.trim`
restricted to the characters `Char.isWhitespace` knows; reimplemented over
`List Char` so that the kernel can evaluate it). -/
def trimChars (l : List Char) : List Char :=
  ((l.dropWhile Char.isWhitespace).reverse.dropWhile Char.isWhitespace).reverse

/-- ASCII lower-casing of one character (all the schemes the crawler filters
are ASCII). -/
def lowerChar (c : Char) : Char :=
  if 65 ≤ c.toNat ∧ c.toNat ≤ 90 then Char.ofNat (c.toNat + 32) else c

/-- `startsWith` over character lists. -/
def charsStartWith : List Char → List Char → Bool
  | _, [] => true
  | [], _ :: _ => false
  | c :: cs, d :: ds => c = d && charsStartWith cs ds

/-- `isValidLink` from crawler.ts: discard blank hrefs and the `mailto:`,
`tel:`, `javascript:`, fragment-only and `data:` schemes. -/
def isValidLink (href : String) : Bool :=
  let trimmed := trimChars href.data
  if trimmed = [] then false
  else
    let lower := trimmed.map lowerChar
    !(charsStartWith lower "mailto:".data) && !(charsStartWith lower "tel:".data) &&
      !(charsStartWith lower "javascript:".data) && !(charsStartWith lower "#".data) &&
      !(charsStartWith lower "data:".data)

/-- State threaded through the anchor loop of the crawler: the two link
lists under construction and the work queue (the crawler pushes directly
onto its queue while scanning anchors). -/
structure LinkState where
  internalLinks : List String
  externalLinks : List String
  queue : List QueueItem
deriving DecidableEq, Repr

/-- Body of the `$('a').each` callback in `crawlSite`: classify one href,
record it, and enqueue it when internal, below the depth ceiling, unvisited
and not already queued. -/
def processAnchor (w : Web) (domain currentUrl : String) (depth maxDepth : Nat)
    (visited : List String) (st : LinkState) (href : String) : LinkState :=
  if ¬ isValidLink href then st
  else
    match w.resolve href currentUrl with
    | none => st
    | some absoluteUrl =>
      match w.hostOf absoluteUrl with
      | none => st
      | some linkDomain =>
        if linkDomain = domain then
          let internal := st.internalLinks ++ [absoluteUrl]
          if depth < maxDepth ∧ absoluteUrl ∉ visited ∧
              ∀ item ∈ st.queue, item.url ≠ absoluteUrl then
            { internalLinks := internal, externalLinks := st.externalLinks,
              queue := st.queue ++ [{ url := absoluteUrl, depth := depth + 1 }] }
          else
            { st with internalLinks := internal }
        else
          { st with externalLinks := st.externalLinks ++ [absoluteUrl] }

/-- The markup kept from a response: the body, when it arrived as a string
with an HTML content type, else the empty string. -/
def responseHtml (resp : HttpResponse) : String :=
  if resp.bodyIsString ∧ resp.contentTypeHtml then resp.body else ""

/-- The anchor-scanning pass of one successful fetch: for HTML bodies with
status in [200, 400), fold `processAnchor` over the page's anchors starting
from empty link lists and the remaining queue; otherwise leave everything
untouched. -/
def extractState (w : Web) (domain currentUrl : String) (depth maxDepth : Nat)
    (visited : List String) (rest : List QueueItem) (resp : HttpResponse) : LinkState :=
  if responseHtml resp ≠ "" ∧ 200 ≤ resp.status ∧ resp.status < 400 then
    (w.anchors (responseHtml resp)).foldl
      (processAnchor w domain currentUrl depth maxDepth visited)
      { internalLinks := [], externalLinks := [], queue := rest }
  else { internalLinks := [], externalLinks := [], queue := rest }

/-- The result record pushed for a thrown fetch. -/
def errPage (item : QueueItem) (msg : String) : PageResult :=
  { url := item.url, statusCode := 0, html := "", depth := item.depth,
    internalLinks := [], externalLinks := [], error := some msg }

/-- The result record pushed for a received response. -/
def okPage (item : QueueItem) (resp : HttpResponse) (st : LinkState) : PageResult :=
  { url := item.url, statusCode := resp.status, html := responseHtml resp,
    depth := item.depth, internalLinks := st.internalLinks,
    externalLinks := st.externalLinks, error := none }

/-- The `while` loop of `crawlSite`, as a fuel-indexed recursion.  Each
iteration pops the queue head; visited URLs are skipped, a thrown fetch
yields an error result with status 0, and a successful response yields a
result whose markup is the body only when it is an HTML string, with link
extraction only for HTML bodies with status in [200, 400). -/
def crawlLoop (w : Web) (domain : String) (maxPages maxDepth : Nat) :
    Nat → List QueueItem → List String → List PageResult → List PageResult
  | 0, _, _, results => results
  | _ + 1, [], _, results => results
  | fuel + 1, item :: rest, visited, results =>
    if results.length < maxPages then
      if item.url ∈ visited then
        crawlLoop w domain maxPages maxDepth fuel rest visited results
      else
        match w.fetch item.url with
        | .error msg =>
          crawlLoop w domain maxPages maxDepth fuel rest (item.url :: visited)
            (results ++ [errPage item msg])
        | .ok resp =>
          crawlLoop w domain maxPages maxDepth fuel
            (extractState w domain item.url item.depth maxDepth (item.url :: visited)
              rest resp).queue
            (item.url :: visited)
            (results ++ [okPage item resp
              (extractState w domain item.url item.depth maxDepth (item.url :: visited)
                rest resp)])
    else results

/-- `crawlSite` from crawler.ts: an unparseable seed URL yields an empty
result list; otherwise the BFS loop runs from the seed at depth 0. -/
def crawlSite (w : Web) (startUrl : String) (maxPages maxDepth fuel : Nat) :
    List PageResult :=
  match w.hostOf startUrl with
  | none => []
  | some domain =>
    crawlLoop w domain maxPages maxDepth fuel [{ url := startUrl, depth := 0 }] [] []

/-! ## Orchestrator (server/runner.ts) -/

/-- `buildInboundLinkMap` from runner.ts, read at a crawled URL: the map is
seeded with every crawled URL at 0 and incremented once per occurrence of
that URL in any page's internal-link list. -/
def buildInboundCount (pages : List PageResult) (url : String) : Nat :=
  (pages.map fun p => p.internalLinks.countP fun l => decide (l = url)).sum

/-- `applyContentGraphIssues` from runner.ts: record the inbound/outbound
counts on the content snapshot and append a major `ORPHAN_PAGE` issue for a
non-seed page with no inbound internal links. -/
def applyContentGraphIssues (page : PageData) (inboundLinks : Nat) : PageData :=
  let contentData := page.contentData.map fun c =>
    { c with inboundLinks := inboundLinks, outboundLinks := c.internalLinkCount }
  let issues :=
    if inboundLinks = 0 ∧ page.depth > 0 then
      page.issues ++
        [{ id := "", category := .content, code := "ORPHAN_PAGE", severity := .major,
           message := "Page has no inbound internal links", pageUrl := some page.url }]
    else page.issues
  { page with contentData := contentData, issues := issues }

/-- The per-page body of the crawl loop in `startAudit`: a fetch error
yields a zero-score `PAGE_UNREACHABLE` record without running the analyzers;
otherwise the analyzers run, graph issues are applied, page-scoped issue ids
are assigned and the page is scored. -/
def processPage (env : AnalyzerEnv) (inbound : String → Nat) (pageId : String)
    (raw : PageResult) : PageData :=
  match raw.error with
  | some msg =>
    { id := pageId, url := raw.url, statusCode := raw.statusCode, depth := raw.depth,
      scores := zeroScores,
      issues := [{ id := "", category := .content, code := "PAGE_UNREACHABLE",
                   severity := .critical, message := msg, pageUrl := some raw.url }],
      seoData := none, performanceData := none, accessibilityData := none,
      contentData := none, designUxData := none }
  | none =>
    let analysis := analyzePage env raw
    let pageBase : PageData :=
      { id := pageId, url := raw.url, statusCode := raw.statusCode, depth := raw.depth,
        scores := zeroScores, issues := analysis.issues,
        seoData := analysis.seoData, performanceData := analysis.performanceData,
        accessibilityData := analysis.accessibilityData,
        contentData := analysis.contentData, designUxData := analysis.designUxData }
    let withGraph := applyContentGraphIssues pageBase (inbound raw.url)
    let issuesWithIds := withGraph.issues.enum.map fun p =>
      { p.2 with id := pageId ++ "-" ++ toString p.1, pageUrl := some withGraph.url }
    let scoredPage := { withGraph with issues := issuesWithIds }
    { scoredPage with scores := calculatePageScores scoredPage }

/-- `generateReport` from runner.ts (the fallback Markdown template; the
numeric and JSON rendering of the interpolated values is abstracted by
`toString`). -/
def generateReport (url : String) (scores : Scores) (issuesSummary : IssuesSummary) :
    String :=
  "# Audit Report for " ++ url ++ "\n\n## Overview\n- **Overall score:** " ++
    toString scores.overall ++ "/100\n- **SEO:** " ++ toString scores.seo ++
    "\n- **Performance:** " ++ toString scores.performance ++
    "\n- **Accessibility:** " ++ toString scores.accessibility ++
    "\n- **Content:** " ++ toString scores.content ++
    "\n- **UX & Design:** " ++ toString scores.uxDesign ++
    "\n\n## Issues summary\n- Critical: " ++ toString issuesSummary.critical ++
    "\n- Major: " ++ toString issuesSummary.major ++
    "\n- Minor: " ++ toString issuesSummary.minor ++
    "\n- By category: seo " ++ toString issuesSummary.byCategory.seo ++
    ", performance " ++ toString issuesSummary.byCategory.performance ++
    ", accessibility " ++ toString issuesSummary.byCategory.accessibility ++
    ", content " ++ toString issuesSummary.byCategory.content ++
    ", uxDesign " ++ toString issuesSummary.byCategory.uxDesign ++
    "\n\n## Next steps\n1. Address critical and major issues starting from the homepage and top-level navigation pages.\n2. Improve metadata (titles, descriptions, headings) on thin-content pages.\n3. Add responsive viewport meta tags and clear CTAs above the fold where missing.\n4. Re-run the audit after fixes to validate improvements.\n"

/-- `startAudit` from runner.ts, returning the successive audit records
written through `storage.update` (each update is a merge into the previous
record).  The crawl outcome is passed in (`crawled`), the per-page UUIDs are
supplied by `ids` and the completion timestamp by `now`.  The generic
exception handler is not modelled: the embedded pipeline is total, and the
explicit zero-pages failure branch is the one under verification. -/
def startAudit (env : AnalyzerEnv) (audit : StoredAudit) (crawled : List PageResult)
    (ids : Nat → String) (now : String) : List StoredAudit :=
  let s1 := { audit with status := AuditStatus.running }
  if crawled = [] then
    [s1, { s1 with status := AuditStatus.failed, completedAt := some now }]
  else
    let inbound := buildInboundCount crawled
    let analyzedPages := crawled.enum.map fun p => processPage env inbound (ids p.1) p.2
    let result := calculateAuditScores analyzedPages
    let reportMarkdown := generateReport audit.url result.1 result.2
    [s1,
     { s1 with status := AuditStatus.completed, completedAt := some now,
               scores := result.1, issuesSummary := result.2,
               pages := analyzedPages, reportMarkdown := some reportMarkdown }]

/-! ## Specification-side reformulations

These definitions restate the scoring rules the way the specification's
sentences do — penalties as weighted severity counts, audit scores as
weighted means of sums — to be compared with the source-derived functions
above. -/

/-- Number of issues of a given category and severity. -/
def countIssues (issues : List Issue) (category : Category) (severity : Severity) : Nat :=
  issues.countP fun i => decide (i.severity = severity) && decide (i.category = category)

/-- The specification's severity-weighted penalty for one category:
`critical = 25`, `major = 15`, `minor = 7`, summed over the category's
issues. -/
def specCategoryPenalty (issues : List Issue) (category : Category) : ℚ :=
  25 * (countIssues issues category .critical : ℚ) +
    15 * (countIssues issues category .major : ℚ) +
    7 * (countIssues issues category .minor : ℚ)

/-- The claim's category base: 100 for seo/accessibility/uxDesign, 95 for
content, and for performance the external score when present, else 80. -/
def claimedBase (page : PageData) : Category → ℚ
  | .seo => 100
  | .accessibility => 100
  | .uxDesign => 100
  | .content => 95
  | .performance =>
    match page.performanceData with
    | some pd => pd.performanceScore.getD 80
    | none => 80

/-- The small fixed structured-data extra penalties of the scorer, per
category (thin content, unlabeled inputs, no internal links / broken links /
orphan at non-seed depth, missing navigation). -/
def specExtraPenalty (page : PageData) : Category → ℚ
  | .seo =>
    match page.seoData with
    | some s => if s.wordCount ≠ 0 ∧ s.wordCount < 120 then 5 else 0
    | none => 0
  | .accessibility =>
    match page.accessibilityData with
    | some a => if a.unlabeledInputs ≠ 0 then 5 else 0
    | none => 0
  | .content =>
    (match page.contentData with
     | some c => if c.internalLinkCount = 0 then (10 : ℚ) else 0
     | none => 0) +
    (match page.contentData with
     | some c => if c.brokenLinks.length > 0 then (5 : ℚ) else 0
     | none => 0) +
    (match page.contentData with
     | some c => if c.inboundLinks = 0 ∧ page.depth > 0 then (10 : ℚ) else 0
     | none => 0)
  | .uxDesign =>
    match page.designUxData with
    | some d => if ¬ d.hasNavigation then 10 else 0
    | none => 0
  | .performance => 0

/-- The claim C2 formula exactly as stated: base minus the full
severity-weighted penalty minus the extra penalty, clamped, for every
category uniformly. -/
def claimedCategoryScore (page : PageData) (category : Category) : ℚ :=
  clampScore (claimedBase page category - specCategoryPenalty page.issues category -
    specExtraPenalty page category)

/-- The corrected per-category formula: as claimed, except that when an
external performance score is present the performance penalty subtracted is
half of each severity penalty (and no extra penalty applies). -/
def specCategoryScore (page : PageData) (category : Category) : ℚ :=
  match category, page.performanceData with
  | .performance, some pd =>
    match pd.performanceScore with
    | some ps => clampScore (ps - specCategoryPenalty page.issues .performance / 2)
    | none => claimedCategoryScore page .performance
  | cat, _ => claimedCategoryScore page cat

/-- Depth weight of a page in the audit-level aggregation. -/
def depthWeight (page : PageData) : ℚ := 1 / (1 + (page.depth : ℚ))

/-- Depth-weighted mean of a per-page quantity. -/
def weightedMean (pages : List PageData) (f : PageData → ℚ) : ℚ :=
  (pages.map fun p => f p * depthWeight p).sum / (pages.map depthWeight).sum

/-- The issues summary claimed by the spec: a direct re-enumeration of a
flattened issue list, counting by severity and by category. -/
def recountSummary (issues : List Issue) : IssuesSummary :=
  { critical := issues.countP fun i => decide (i.severity = Severity.critical),
    major := issues.countP fun i => decide (i.severity = Severity.major),
    minor := issues.countP fun i => decide (i.severity = Severity.minor),
    byCategory :=
      { seo := issues.countP fun i => decide (i.category = Category.seo),
        performance := issues.countP fun i => decide (i.category = Category.performance),
        accessibility := issues.countP fun i => decide (i.category = Category.accessibility),
        content := issues.countP fun i => decide (i.category = Category.content),
        uxDesign := issues.countP fun i => decide (i.category = Category.uxDesign) } }

/-- How a crawl result reflects the fetch of its own URL: a thrown fetch is
recorded as an empty-markup, status-0 result with the error message; a
received response is recorded with its status, no error, and markup equal to
the body exactly when the body is an HTML string. -/
def fetchRecorded (w : Web) (r : PageResult) : Prop :=
  match w.fetch r.url with
  | .error msg =>
    r.html = "" ∧ r.statusCode = 0 ∧ r.error = some msg ∧
      r.internalLinks = [] ∧ r.externalLinks = []
  | .ok resp =>
    r.statusCode = resp.status ∧ r.error = none ∧
      r.html = (if resp.bodyIsString ∧ resp.contentTypeHtml then resp.body else "")

/-- The discovery relation of the crawl: an entry is either the seed at
depth 0, or was discovered on some already-produced page at one more than
that page's depth, with the parent below the depth ceiling. -/
def hasParent (startUrl : String) (maxDepth : Nat) (results : List PageResult)
    (url : String) (depth : Nat) : Prop :=
  (url = startUrl ∧ depth = 0) ∨
    ∃ p ∈ results, url ∈ p.internalLinks ∧ depth = p.depth + 1 ∧ p.depth < maxDepth

/-! ## Concrete example inputs

Closed inputs used by the counterexample and witness theorems. -/

/-- A page carrying an external performance score 90 and one critical
performance issue: the blended half-penalty gives 78 where the uniform
full-penalty formula would give 65. -/
def c2Page : PageData :=
  { id := "p1", url := "https://site.test/", statusCode := 200, depth := 0,
    scores := zeroScores,
    issues := [{ id := "p1-0", category := .performance, code := "POOR_PERFORMANCE_SCORE",
                 severity := .critical, message := "slow", pageUrl := some "https://site.test/" }],
    seoData := none,
    performanceData := some
      { performanceScore := some 90, firstContentfulPaintMs := none,
        largestContentfulPaintMs := none, totalBlockingTimeMs := none,
        cumulativeLayoutShift := none, strategy := some "mobile", error := none },
    accessibilityData := none, contentData := none, designUxData := none }

/-- A depth-1 page with fixed scores, for instantiating the audit-level
aggregation. -/
def c3Page : PageData :=
  { id := "p2", url := "https://site.test/a", statusCode := 200, depth := 1,
    scores := { overall := 90, seo := 80, performance := 70, accessibility := 100,
                content := 95, uxDesign := 85 },
    issues := [], seoData := none, performanceData := none,
    accessibilityData := none, contentData := none, designUxData := none }

/-- A web whose seed responds with a non-HTML content type (e.g. a PDF):
the fetch succeeds, so no exception is thrown and no `error` is recorded. -/
def c4Web : Web :=
  { fetch := fun _ => .ok { status := 200, contentTypeHtml := false,
                            bodyIsString := true, body := "pdfbytes" },
    anchors := fun _ => [],
    resolve := fun href _ => some href,
    hostOf := fun _ => some "site.test" }

/-- A web whose every fetch throws (network failure). -/
def c4ErrWeb : Web :=
  { fetch := fun _ => .error "ECONNREFUSED",
    anchors := fun _ => [],
    resolve := fun href _ => some href,
    hostOf := fun _ => some "site.test" }

/-- The single result of crawling `c4ErrWeb`. -/
def c4ErrResult : PageResult :=
  { url := "https://site.test/err", statusCode := 0, html := "", depth := 0,
    internalLinks := [], externalLinks := [], error := some "ECONNREFUSED" }

/-- A web whose seed page contains two anchors to the same internal URL:
the crawler records the resolved URL twice in `internalLinks`. -/
def c5Web : Web :=
  { fetch := fun u =>
      if u = "https://s.test/" then
        .ok { status := 200, contentTypeHtml := true, bodyIsString := true,
              body := "<a href=/x></a><a href=/x></a>" }
      else
        .ok { status := 200, contentTypeHtml := true, bodyIsString := true, body := "" },
    anchors := fun h =>
      if h = "<a href=/x></a><a href=/x></a>" then ["/x", "/x"] else [],
    resolve := fun href _ => if href = "/x" then some "https://s.test/x" else some href,
    hostOf := fun _ => some "s.test" }

/-- A two-page web: the seed links once to an internal child page. -/
def c7Web : Web :=
  { fetch := fun u =>
      if u = "https://s.test/" then
        .ok { status := 200, contentTypeHtml := true, bodyIsString := true,
              body := "<a href=/x></a>" }
      else
        .ok { status := 200, contentTypeHtml := true, bodyIsString := true, body := "" },
    anchors := fun h => if h = "<a href=/x></a>" then ["/x"] else [],
    resolve := fun href _ => if href = "/x" then some "https://s.test/x" else some href,
    hostOf := fun _ => some "s.test" }

/-- The child-page crawl result produced by `c7Web`. -/
def c7ChildResult : PageResult :=
  { url := "https://s.test/x", statusCode := 200, html := "", depth := 1,
    internalLinks := [], externalLinks := [], error := none }

def defaultSeoData : SeoData :=
  { title := "", metaDescription := none, h1Text := "", wordCount := 0,
    imagesWithoutAlt := 0 }

def defaultAccessibilityData : AccessibilityData :=
  { hasLangAttribute := false, hasMainLandmark := false, labeledInputs := 0,
    unlabeledInputs := 0 }

def defaultContentData : ContentStructureData :=
  { pageType := "generic", internalLinkCount := 0, externalLinkCount := 0,
    brokenLinks := [], inboundLinks := 0, outboundLinks := 0 }

def defaultDesignUxData : DesignUxData :=
  { hasNavigation := false, primaryCtaFound := false, primaryCtaAboveFold := false,
    fontCount := 0, colorCount := 0, hasViewportMeta := false }

/-- A trivial analyzer environment (the markup analyzers are never reached
by the scenarios that use it). -/
def trivialEnv : AnalyzerEnv :=
  { seo := fun _ _ => (defaultSeoData, []),
    accessibility := fun _ _ => (defaultAccessibilityData, []),
    designUx := fun _ _ => (defaultDesignUxData, []),
    contentStructure := fun _ => (defaultContentData, []),
    apiKey := none,
    psiCall := fun _ => .error "not attempted" }

/-- A freshly created audit record, as `storage.create` builds it. -/
def freshAudit : StoredAudit :=
  { id := "a1", url := "https://s.test/", status := .queued,
    createdAt := "2026-01-01T00:00:00.000Z", completedAt := none,
    scores := zeroScores, issuesSummary := zeroSummary, pages := [],
    reportMarkdown := none }

/-- A successfully fetched crawl result whose markup is empty (e.g. a
non-HTML response). -/
def c10Raw : PageResult :=
  { url := "https://s.test/doc.pdf", statusCode := 200, html := "", depth := 1,
    internalLinks := [], externalLinks := [], error := none }

/-- A PageSpeed response with LCP between 2.5s and 4s and a high layout
shift: the analyzer emits no issue at all for it. -/
def c6Psi : PsiResponse :=
  { perfScore := some (9 / 10), firstContentfulPaintMs := some 1000,
    largestContentfulPaintMs := some 3000, totalBlockingTimeMs := some 100,
    cumulativeLayoutShift := some (1 / 2) }

/-! ## Scoring lemmas -/

theorem foldl_add_shift (l : List ℚ) (a : ℚ) :
    l.foldl (· + ·) a = a + l.foldl (· + ·) 0 := by
  induction l generalizing a with
  | nil => simp
  | cons x xs ih =>
    simp only [List.foldl_cons]
    rw [ih (a + x), ih (0 + x)]
    ring

theorem sevFold_eq (l : List Issue) :
    (l.map fun i => severityPenalty i.severity).foldl (· + ·) 0 =
      25 * ((l.countP fun i => decide (i.severity = Severity.critical)) : ℚ) +
        15 * ((l.countP fun i => decide (i.severity = Severity.major)) : ℚ) +
        7 * ((l.countP fun i => decide (i.severity = Severity.minor)) : ℚ) := by
  induction l with
  | nil => simp
  | cons i t ih =>
    simp only [List.map_cons, List.foldl_cons]
    rw [foldl_add_shift (t.map fun i => severityPenalty i.severity)
      (0 + severityPenalty i.severity), ih]
    cases h : i.severity <;>
      simp [severityPenalty, List.countP_cons, h, Nat.cast_add] <;> ring

theorem penaltySum_eq (issues : List Issue) (category : Category) :
    ((issues.filter fun i => decide (i.category = category)).map
      fun i => severityPenalty i.severity).foldl (· + ·) 0 =
      specCategoryPenalty issues category := by
  rw [sevFold_eq]
  simp only [specCategoryPenalty, countIssues, List.countP_filter]

theorem halfFold_eq (l : List Issue) :
    (l.map fun i => severityPenalty i.severity / 2).foldl (· + ·) 0 =
      ((l.map fun i => severityPenalty i.severity).foldl (· + ·) 0) / 2 := by
  induction l with
  | nil => simp
  | cons i t ih =>
    simp only [List.map_cons, List.foldl_cons]
    rw [foldl_add_shift (t.map fun i => severityPenalty i.severity / 2)
        (0 + severityPenalty i.severity / 2), ih,
      foldl_add_shift (t.map fun i => severityPenalty i.severity)
        (0 + severityPenalty i.severity)]
    ring

theorem scoreCategory_eq (base : ℚ) (issues : List Issue) (category : Category)
    (extra : ℚ) :
    scoreCategory base issues category extra =
      clampScore (base - specCategoryPenalty issues category - extra) := by
  unfold scoreCategory
  rw [penaltySum_eq]

theorem scorePerformance_eq (performanceData : Option PerformanceData)
    (issues : List Issue) :
    scorePerformance performanceData issues =
      match performanceData with
      | some pd =>
        match pd.performanceScore with
        | some ps => clampScore (ps - specCategoryPenalty issues .performance / 2)
        | none => clampScore (80 - specCategoryPenalty issues .performance)
      | none => clampScore (80 - specCategoryPenalty issues .performance) := by
  unfold scorePerformance
  match performanceData with
  | some pd =>
    match h : pd.performanceScore with
    | some ps =>
      simp only [h, halfFold_eq, penaltySum_eq]
    | none => simp only [h, scoreCategory_eq, sub_zero]
  | none => simp only [scoreCategory_eq, sub_zero]

/-- C2, corrected form: every per-category page score follows the
base-minus-weighted-penalties-minus-extras formula, except that with an
external performance score present the performance penalty is halved. -/
theorem C2_page_score_formula (page : PageData) :
    (calculatePageScores page).seo = specCategoryScore page .seo ∧
    (calculatePageScores page).accessibility = specCategoryScore page .accessibility ∧
    (calculatePageScores page).content = specCategoryScore page .content ∧
    (calculatePageScores page).uxDesign = specCategoryScore page .uxDesign ∧
    (calculatePageScores page).performance = specCategoryScore page .performance := by
  unfold calculatePageScores specCategoryScore claimedCategoryScore claimedBase specExtraPenalty
  refine ⟨?_, ?_, ?_, ?_, ?_⟩
  · simp only [scoreCategory_eq]
  · simp only [scoreCategory_eq]
  · simp only [scoreCategory_eq]
  · simp only [scoreCategory_eq]
  · simp only [scorePerformance_eq, scoreCategory_eq]
    match h : page.performanceData with
    | some pd =>
      match h2 : pd.performanceScore with
      | some ps => simp [h2]
      | none => simp [h2]
    | none => simp

/-- C2, as literally claimed, fails: with an external performance score 90
and one critical performance issue the code blends half penalties and scores
78, while the claimed uniform formula gives 65. -/
theorem C2_counterexample :
    (calculatePageScores c2Page).performance = 78 ∧
    claimedCategoryScore c2Page .performance = 65 ∧
    (calculatePageScores c2Page).performance ≠ claimedCategoryScore c2Page .performance := by
  have h1 : (calculatePageScores c2Page).performance = 78 := by
    have h : (calculatePageScores c2Page).performance =
        scorePerformance c2Page.performanceData c2Page.issues := by
      simp only [calculatePageScores]
    rw [h, scorePerformance_eq]
    simp [c2Page, specCategoryPenalty, countIssues, List.countP_cons, List.countP_nil]
    norm_num [clampScore, jsRound]
  have h2 : claimedCategoryScore c2Page .performance = 65 := by
    simp [claimedCategoryScore, claimedBase, specExtraPenalty, c2Page,
      specCategoryPenalty, countIssues, List.countP_cons, List.countP_nil]
    norm_num [clampScore, jsRound]
  exact ⟨h1, h2, by rw [h1, h2]; norm_num⟩

/-- C1, corrected form: with no API key the analyzer returns no snapshot and
exactly one minor PERFORMANCE_DATA_UNAVAILABLE issue, and the scorer's
placeholder evaluates to 73 (base 80 minus the minor penalty 7); an
attempted call that errors yields an error-marker snapshot with no numeric
score, the same single minor issue (with the failure message), and again
score 73. -/
theorem C1_placeholder_behaviour (url msg key : String)
    (psi : Except String PsiResponse) :
    ((analyzePerformance none psi url).1 = none ∧
     (analyzePerformance none psi url).2 =
       [createIssue .performance "PERFORMANCE_DATA_UNAVAILABLE" .minor
          "PageSpeed API key not configured; using placeholder score" (some url)] ∧
     scorePerformance (analyzePerformance none psi url).1
       (analyzePerformance none psi url).2 = 73) ∧
    ((analyzePerformance (some key) (Except.error msg) url).1 =
       some { performanceScore := none, firstContentfulPaintMs := none,
              largestContentfulPaintMs := none, totalBlockingTimeMs := none,
              cumulativeLayoutShift := none, strategy := none, error := some msg } ∧
     (analyzePerformance (some key) (Except.error msg) url).2 =
       [createIssue .performance "PERFORMANCE_DATA_UNAVAILABLE" .minor
          "Failed to retrieve PageSpeed data" (some url)] ∧
     scorePerformance (analyzePerformance (some key) (Except.error msg) url).1
       (analyzePerformance (some key) (Except.error msg) url).2 = 73) := by
  refine ⟨⟨rfl, rfl, ?_⟩, ⟨rfl, rfl, ?_⟩⟩ <;>
    norm_num [analyzePerformance, scorePerformance, scoreCategory, createIssue,
      clampScore, jsRound, severityPenalty]

/-- C1, as literally claimed, fails: the unconfigured placeholder score is
73, not 70, and the attempted-but-failed path also scores 73, not 50. -/
theorem C1_counterexample :
    scorePerformance (analyzePerformance none (Except.error "boom") "https://s.test/").1
      (analyzePerformance none (Except.error "boom") "https://s.test/").2 = 73 ∧
    ¬ scorePerformance (analyzePerformance none (Except.error "boom") "https://s.test/").1
      (analyzePerformance none (Except.error "boom") "https://s.test/").2 = 70 ∧
    scorePerformance
      (analyzePerformance (some "key") (Except.error "boom") "https://s.test/").1
      (analyzePerformance (some "key") (Except.error "boom") "https://s.test/").2 ≠ 50 := by
  refine ⟨?_, ?_, ?_⟩ <;>
    norm_num [analyzePerformance, scorePerformance, scoreCategory, createIssue,
      clampScore, jsRound, severityPenalty]

/-! ## Audit-level aggregation lemmas -/

theorem auditFold_go (pages : List PageData) (init : Scores × ℚ) :
    pages.foldl auditStep init =
      ({ overall := init.1.overall + (pages.map fun p => p.scores.overall * depthWeight p).sum,
         seo := init.1.seo + (pages.map fun p => p.scores.seo * depthWeight p).sum,
         performance :=
           init.1.performance + (pages.map fun p => p.scores.performance * depthWeight p).sum,
         accessibility :=
           init.1.accessibility + (pages.map fun p => p.scores.accessibility * depthWeight p).sum,
         content := init.1.content + (pages.map fun p => p.scores.content * depthWeight p).sum,
         uxDesign := init.1.uxDesign + (pages.map fun p => p.scores.uxDesign * depthWeight p).sum },
       init.2 + (pages.map depthWeight).sum) := by
  induction pages generalizing init with
  | nil => simp
  | cons p t ih =>
    simp only [List.foldl_cons, List.map_cons, List.sum_cons]
    rw [ih]
    simp only [auditStep, depthWeight, Prod.mk.injEq, Scores.mk.injEq]
    refine ⟨⟨?_, ?_, ?_, ?_, ?_, ?_⟩, ?_⟩ <;> dsimp only <;> ring

theorem auditFold_spec (pages : List PageData) :
    auditFold pages =
      ({ overall := (pages.map fun p => p.scores.overall * depthWeight p).sum,
         seo := (pages.map fun p => p.scores.seo * depthWeight p).sum,
         performance := (pages.map fun p => p.scores.performance * depthWeight p).sum,
         accessibility := (pages.map fun p => p.scores.accessibility * depthWeight p).sum,
         content := (pages.map fun p => p.scores.content * depthWeight p).sum,
         uxDesign := (pages.map fun p => p.scores.uxDesign * depthWeight p).sum },
       (pages.map depthWeight).sum) := by
  rw [auditFold, auditFold_go]
  simp [zeroScores]

/-- C3: for a non-empty page list, each audit-level category score
(including overall) is the clamped, rounded depth-weighted mean of the
pages' corresponding scores, with weight `1 / (1 + depth)`, computed
independently per category. -/
theorem C3_audit_weighted_mean (pages : List PageData) (h : pages ≠ []) :
    (calculateAuditScores pages).1 =
      { overall := clampScore (weightedMean pages fun p => p.scores.overall),
        seo := clampScore (weightedMean pages fun p => p.scores.seo),
        performance := clampScore (weightedMean pages fun p => p.scores.performance),
        accessibility := clampScore (weightedMean pages fun p => p.scores.accessibility),
        content := clampScore (weightedMean pages fun p => p.scores.content),
        uxDesign := clampScore (weightedMean pages fun p => p.scores.uxDesign) } := by
  simp only [calculateAuditScores, if_neg h, auditFold_spec, weightedMean]

/-- Witness for C3 at a concrete one-page audit. -/
theorem C3_witness :
    (calculateAuditScores [c3Page]).1 =
      { overall := clampScore (weightedMean [c3Page] fun p => p.scores.overall),
        seo := clampScore (weightedMean [c3Page] fun p => p.scores.seo),
        performance := clampScore (weightedMean [c3Page] fun p => p.scores.performance),
        accessibility := clampScore (weightedMean [c3Page] fun p => p.scores.accessibility),
        content := clampScore (weightedMean [c3Page] fun p => p.scores.content),
        uxDesign := clampScore (weightedMean [c3Page] fun p => p.scores.uxDesign) } :=
  C3_audit_weighted_mean [c3Page] (by simp)

/-! ## Issues-summary lemmas -/

theorem tallyIssues_eq_recount (issues : List Issue) :
    tallyIssues issues = recountSummary issues := by
  simp [tallyIssues, recountSummary, List.countP_eq_length_filter]

theorem auditSummary_recount (pages : List PageData) :
    (calculateAuditScores pages).2 = recountSummary (pages.flatMap fun p => p.issues) := by
  by_cases h : pages = []
  · subst h
    simp [calculateAuditScores, zeroSummary, recountSummary]
  · simp only [calculateAuditScores, if_neg h, tallyIssues_eq_recount]

/-! ## Orchestrator theorems -/

/-- C8: a crawl that returns zero pages makes the orchestrator write exactly
two records: the Running transition, then the Failed transition stamped with
`completedAt`, leaving scores, issue summary, pages and report exactly as
they were on the audit (empty for a fresh audit). -/
theorem C8_zero_pages_failed (env : AnalyzerEnv) (audit : StoredAudit)
    (crawled : List PageResult) (ids : Nat → String) (now : String)
    (hc : crawled = []) :
    startAudit env audit crawled ids now =
      [{ audit with status := AuditStatus.running },
       { audit with status := AuditStatus.failed, completedAt := some now }] := by
  subst hc
  rfl

/-- Witness for C8 on a fresh audit with an empty crawl. -/
theorem C8_witness :
    startAudit trivialEnv freshAudit [] (fun _ => "p") "2026-01-01T00:01:00.000Z" =
      [{ freshAudit with status := AuditStatus.running },
       { freshAudit with status := AuditStatus.failed,
                         completedAt := some "2026-01-01T00:01:00.000Z" }] :=
  C8_zero_pages_failed trivialEnv freshAudit [] (fun _ => "p")
    "2026-01-01T00:01:00.000Z" rfl

/-- C9: every audit record the orchestrator writes keeps `issuesSummary`
equal to the direct re-enumeration of the flattened issues of the record's
own pages (assuming the record it started from satisfied the same
invariant, as a freshly created audit does). -/
theorem C9_summary_recount (env : AnalyzerEnv) (audit : StoredAudit)
    (crawled : List PageResult) (ids : Nat → String) (now : String)
    (h0 : audit.issuesSummary = recountSummary (audit.pages.flatMap fun p => p.issues))
    (s : StoredAudit) (hs : s ∈ startAudit env audit crawled ids now) :
    s.issuesSummary = recountSummary (s.pages.flatMap fun p => p.issues) := by
  simp only [startAudit] at hs
  by_cases hc : crawled = []
  · rw [if_pos hc] at hs
    simp only [List.mem_cons, List.not_mem_nil, or_false] at hs
    rcases hs with rfl | rfl <;> exact h0
  · rw [if_neg hc] at hs
    simp only [List.mem_cons, List.not_mem_nil, or_false] at hs
    rcases hs with rfl | rfl
    · exact h0
    · exact auditSummary_recount _

/-- Witness for C9 on the Failed record of a zero-page audit. -/
theorem C9_witness :
    ({ freshAudit with status := AuditStatus.failed, completedAt := some "t1" } : StoredAudit).issuesSummary =
      recountSummary
        (({ freshAudit with status := AuditStatus.failed, completedAt := some "t1" } : StoredAudit).pages.flatMap
          fun p => p.issues) :=
  C9_summary_recount trivialEnv freshAudit [] (fun _ => "p") "t1" rfl _
    (by simp [startAudit])

/-! ## Empty-markup page theorems -/

theorem scoreCategory_of_absent (base extra : ℚ) (issues : List Issue) (category : Category)
    (h : ∀ i ∈ issues, i.category ≠ category) :
    scoreCategory base issues category extra = clampScore (base - extra) := by
  unfold scoreCategory
  have hf : issues.filter (fun i => decide (i.category = category)) = [] := by
    simp only [List.filter_eq_nil_iff]
    intro i hi
    simp [h i hi]
  simp [hf]

theorem calculatePageScores_content_only (pd : PageData)
    (hiss : ∀ i ∈ pd.issues, i.category = Category.content)
    (hseo : pd.seoData = none) (hperf : pd.performanceData = none)
    (hacc : pd.accessibilityData = none) (hux : pd.designUxData = none) :
    (calculatePageScores pd).seo = 100 ∧ (calculatePageScores pd).accessibility = 100 ∧
    (calculatePageScores pd).uxDesign = 100 ∧ (calculatePageScores pd).performance = 80 := by
  have habs : ∀ c, c ≠ Category.content → ∀ i ∈ pd.issues, i.category ≠ c := by
    intro c hc i hi
    rw [hiss i hi]
    exact fun e => hc e.symm
  simp only [calculatePageScores, scorePerformance, hseo, hperf, hacc, hux]
  refine ⟨?_, ?_, ?_, ?_⟩ <;>
    · rw [scoreCategory_of_absent _ _ _ _ (habs _ (by simp))]
      norm_num [clampScore, jsRound]

/-- C10: a successfully fetched page with empty markup gets from
`analyzePage` exactly one critical content PAGE_UNREACHABLE issue and no
structured-data snapshots, and the orchestrator's page record is then scored
100 in seo, accessibility and uxDesign and 80 in performance (not a
zero-score record). -/
theorem C10_empty_markup (env : AnalyzerEnv) (inbound : String → Nat) (pageId : String)
    (raw : PageResult) (herr : raw.error = none) (hhtml : raw.html = "") :
    (analyzePage env raw).issues =
      [createIssue .content "PAGE_UNREACHABLE" .critical "Page could not be retrieved"
        (some raw.url)] ∧
    (analyzePage env raw).seoData = none ∧
    (analyzePage env raw).performanceData = none ∧
    (analyzePage env raw).accessibilityData = none ∧
    (analyzePage env raw).contentData = none ∧
    (analyzePage env raw).designUxData = none ∧
    (processPage env inbound pageId raw).scores.seo = 100 ∧
    (processPage env inbound pageId raw).scores.accessibility = 100 ∧
    (processPage env inbound pageId raw).scores.uxDesign = 100 ∧
    (processPage env inbound pageId raw).scores.performance = 80 := by
  have hA : analyzePage env raw =
      { issues := [createIssue .content "PAGE_UNREACHABLE" .critical
          "Page could not be retrieved" (some raw.url)],
        seoData := none, performanceData := none, accessibilityData := none,
        contentData := none, designUxData := none } := by
    simp [analyzePage, hhtml]
  have key : (processPage env inbound pageId raw).scores.seo = 100 ∧
      (processPage env inbound pageId raw).scores.accessibility = 100 ∧
      (processPage env inbound pageId raw).scores.uxDesign = 100 ∧
      (processPage env inbound pageId raw).scores.performance = 80 := by
    by_cases horph : inbound raw.url = 0 ∧ raw.depth > 0 <;>
      · simp only [processPage, herr, hA, applyContentGraphIssues, horph, if_true, if_false,
          Option.map_none, List.enum_cons, List.enum_nil, List.map_cons, List.map_nil,
          List.append_nil, List.cons_append, List.nil_append]
        refine calculatePageScores_content_only _ ?_ rfl rfl rfl rfl
        simp [createIssue, List.enum_cons, List.enum_nil, Prod.map]
        try intro i x h1 h2
        try simp_all
  exact ⟨by rw [hA], by rw [hA], by rw [hA], by rw [hA], by rw [hA], by rw [hA],
    key.1, key.2.1, key.2.2.1, key.2.2.2⟩

/-- Witness for C10 on a concrete non-HTML crawl result. -/
theorem C10_witness :
    (analyzePage trivialEnv c10Raw).issues =
      [createIssue .content "PAGE_UNREACHABLE" .critical "Page could not be retrieved"
        (some c10Raw.url)] ∧
    (analyzePage trivialEnv c10Raw).seoData = none ∧
    (analyzePage trivialEnv c10Raw).performanceData = none ∧
    (analyzePage trivialEnv c10Raw).accessibilityData = none ∧
    (analyzePage trivialEnv c10Raw).contentData = none ∧
    (analyzePage trivialEnv c10Raw).designUxData = none ∧
    (processPage trivialEnv (fun _ => 1) "p" c10Raw).scores.seo = 100 ∧
    (processPage trivialEnv (fun _ => 1) "p" c10Raw).scores.accessibility = 100 ∧
    (processPage trivialEnv (fun _ => 1) "p" c10Raw).scores.uxDesign = 100 ∧
    (processPage trivialEnv (fun _ => 1) "p" c10Raw).scores.performance = 80 :=
  C10_empty_markup trivialEnv (fun _ => 1) "p" c10Raw rfl rfl

/-! ## Crawler lemmas -/

theorem processAnchor_spec (w : Web) (domain currentUrl : String)
    (depth maxDepth : Nat) (visited : List String) (st : LinkState) (href : String) :
    (∀ u ∈ st.internalLinks,
      u ∈ (processAnchor w domain currentUrl depth maxDepth visited st href).internalLinks) ∧
    (∀ q ∈ (processAnchor w domain currentUrl depth maxDepth visited st href).queue,
      q ∈ st.queue ∨
        (q.url ∈ (processAnchor w domain currentUrl depth maxDepth visited st href).internalLinks ∧
          q.depth = depth + 1 ∧ depth < maxDepth)) := by
  unfold processAnchor
  split
  · exact ⟨fun u hu => hu, fun q hq => Or.inl hq⟩
  split
  · exact ⟨fun u hu => hu, fun q hq => Or.inl hq⟩
  split
  · exact ⟨fun u hu => hu, fun q hq => Or.inl hq⟩
  split
  · split
    · next habs hcond =>
        refine ⟨fun u hu => List.mem_append_left _ hu, fun q hq => ?_⟩
        rcases List.mem_append.1 hq with h | h
        · exact Or.inl h
        · have hq2 : q = { url := _, depth := depth + 1 } := List.mem_singleton.1 h
          subst hq2
          exact Or.inr ⟨List.mem_append_right _ (List.mem_singleton.2 rfl), rfl, hcond.1⟩
    · exact ⟨fun u hu => List.mem_append_left _ hu, fun q hq => Or.inl hq⟩
  · exact ⟨fun u hu => hu, fun q hq => Or.inl hq⟩

theorem foldAnchors_spec (w : Web) (domain currentUrl : String)
    (depth maxDepth : Nat) (visited : List String) (hrefs : List String) :
    ∀ st : LinkState,
      (∀ u ∈ st.internalLinks,
        u ∈ ((hrefs.foldl (processAnchor w domain currentUrl depth maxDepth visited)
          st).internalLinks)) ∧
      (∀ q ∈ (hrefs.foldl (processAnchor w domain currentUrl depth maxDepth visited) st).queue,
        q ∈ st.queue ∨
          (q.url ∈ ((hrefs.foldl (processAnchor w domain currentUrl depth maxDepth visited)
              st).internalLinks) ∧
            q.depth = depth + 1 ∧ depth < maxDepth)) := by
  induction hrefs with
  | nil => exact fun st => ⟨fun u hu => hu, fun q hq => Or.inl hq⟩
  | cons href hs ih =>
    intro st
    simp only [List.foldl_cons]
    obtain ⟨ih1, ih2⟩ := ih (processAnchor w domain currentUrl depth maxDepth visited st href)
    obtain ⟨s1, s2⟩ := processAnchor_spec w domain currentUrl depth maxDepth visited st href
    refine ⟨fun u hu => ih1 u (s1 u hu), fun q hq => ?_⟩
    rcases ih2 q hq with hq2 | ⟨hu, hd, hlt⟩
    · rcases s2 q hq2 with h | ⟨hu, hd, hlt⟩
      · exact Or.inl h
      · exact Or.inr ⟨ih1 _ hu, hd, hlt⟩
    · exact Or.inr ⟨hu, hd, hlt⟩

theorem extractState_spec (w : Web) (domain currentUrl : String)
    (depth maxDepth : Nat) (visited : List String) (rest : List QueueItem)
    (resp : HttpResponse) :
    ∀ q ∈ (extractState w domain currentUrl depth maxDepth visited rest resp).queue,
      q ∈ rest ∨
        (q.url ∈ (extractState w domain currentUrl depth maxDepth visited rest resp).internalLinks ∧
          q.depth = depth + 1 ∧ depth < maxDepth) := by
  unfold extractState
  split
  · exact (foldAnchors_spec w domain currentUrl depth maxDepth visited _ _).2
  · exact fun q hq => Or.inl hq

theorem hasParent_mono {startUrl : String} {maxDepth : Nat}
    {results results2 : List PageResult} {url : String} {depth : Nat}
    (hsub : ∀ p ∈ results, p ∈ results2) :
    hasParent startUrl maxDepth results url depth →
      hasParent startUrl maxDepth results2 url depth := by
  rintro (h | ⟨p, hp, h1, h2, h3⟩)
  · exact Or.inl h
  · exact Or.inr ⟨p, hsub p hp, h1, h2, h3⟩

theorem crawlLoop_hasParent (w : Web) (domain startUrl : String) (maxPages maxDepth : Nat) :
    ∀ (fuel : Nat) (queue : List QueueItem) (visited : List String)
      (results : List PageResult),
      (∀ q ∈ queue, hasParent startUrl maxDepth results q.url q.depth) →
      (∀ r ∈ results, hasParent startUrl maxDepth results r.url r.depth) →
      ∀ r ∈ crawlLoop w domain maxPages maxDepth fuel queue visited results,
        hasParent startUrl maxDepth
          (crawlLoop w domain maxPages maxDepth fuel queue visited results) r.url r.depth := by
  intro fuel
  induction fuel with
  | zero =>
    intro queue visited results hq hr
    simpa [crawlLoop] using hr
  | succ fuel ih =>
    intro queue visited results hq hr
    cases queue with
    | nil => simpa [crawlLoop] using hr
    | cons item rest =>
      simp only [crawlLoop]
      by_cases hlen : results.length < maxPages
      · rw [if_pos hlen]
        by_cases hvis : item.url ∈ visited
        · rw [if_pos hvis]
          exact ih rest visited results (fun q hq2 => hq q (List.mem_cons_of_mem _ hq2)) hr
        · rw [if_neg hvis]
          rcases hfetch : w.fetch item.url with msg | resp
          · exact ih rest (item.url :: visited) (results ++ [errPage item msg])
              (fun q hq2 =>
                hasParent_mono (fun p hp => List.mem_append_left _ hp)
                  (hq q (List.mem_cons_of_mem _ hq2)))
              (by
                intro r hr2
                rcases List.mem_append.1 hr2 with h | h
                · exact hasParent_mono (fun p hp => List.mem_append_left _ hp) (hr r h)
                · have he : r = errPage item msg := List.mem_singleton.1 h
                  subst he
                  exact hasParent_mono (fun p hp => List.mem_append_left _ hp)
                    (hq item (List.mem_cons_self _ _)))
          · refine ih _ (item.url :: visited) _ ?_ ?_
            · intro q hq2
              rcases extractState_spec w domain item.url item.depth maxDepth
                  (item.url :: visited) rest resp q hq2 with h | ⟨hu, hd, hlt⟩
              · exact hasParent_mono (fun p hp => List.mem_append_left _ hp)
                  (hq q (List.mem_cons_of_mem _ h))
              · exact Or.inr ⟨okPage item resp _,
                  List.mem_append_right _ (List.mem_singleton.2 rfl), hu, hd, hlt⟩
            · intro r hr2
              rcases List.mem_append.1 hr2 with h | h
              · exact hasParent_mono (fun p hp => List.mem_append_left _ hp) (hr r h)
              · have he : r = okPage item resp _ := List.mem_singleton.1 h
                subst he
                exact hasParent_mono (fun p hp => List.mem_append_left _ hp)
                  (hq item (List.mem_cons_self _ _))
      · rw [if_neg hlen]
        exact hr

theorem nodup_push {results : List PageResult} {visited : List String} (x : PageResult)
    (h1 : (results.map fun r => r.url).Nodup)
    (h2 : ∀ r ∈ results, r.url ∈ visited)
    (hx : x.url ∉ visited) :
    (((results ++ [x]).map fun r => r.url).Nodup) ∧
    (∀ r ∈ results ++ [x], r.url ∈ x.url :: visited) := by
  constructor
  · rw [List.map_append]
    refine List.Nodup.append h1 (by simp) ?_
    intro u hu hu2
    simp only [List.map_cons, List.map_nil, List.mem_singleton] at hu2
    subst hu2
    rcases List.mem_map.1 hu with ⟨r, hrmem, hre⟩
    exact hx (hre ▸ h2 r hrmem)
  · intro r hrm
    rcases List.mem_append.1 hrm with h | h
    · exact List.mem_cons_of_mem _ (h2 r h)
    · rw [List.mem_singleton.1 h]
      exact List.mem_cons_self _ _

theorem crawlLoop_nodup (w : Web) (domain : String) (maxPages maxDepth : Nat) :
    ∀ (fuel : Nat) (queue : List QueueItem) (visited : List String)
      (results : List PageResult),
      ((results.map fun r => r.url).Nodup) →
      (∀ r ∈ results, r.url ∈ visited) →
      (((crawlLoop w domain maxPages maxDepth fuel queue visited results).map
        fun r => r.url).Nodup) := by
  intro fuel
  induction fuel with
  | zero =>
    intro queue visited results h1 h2
    simpa [crawlLoop] using h1
  | succ fuel ih =>
    intro queue visited results h1 h2
    cases queue with
    | nil => simpa [crawlLoop] using h1
    | cons item rest =>
      simp only [crawlLoop]
      by_cases hlen : results.length < maxPages
      · rw [if_pos hlen]
        by_cases hvis : item.url ∈ visited
        · rw [if_pos hvis]
          exact ih rest visited results h1 h2
        · rw [if_neg hvis]
          rcases hfetch : w.fetch item.url with msg | resp
          · obtain ⟨n1, n2⟩ := nodup_push (errPage item msg) h1 h2 hvis
            exact ih rest (item.url :: visited) (results ++ [errPage item msg]) n1 n2
          · obtain ⟨n1, n2⟩ := nodup_push
              (okPage item resp (extractState w domain item.url item.depth maxDepth
                (item.url :: visited) rest resp)) h1 h2 hvis
            exact ih _ (item.url :: visited) _ n1 n2
      · rw [if_neg hlen]
        exact h1

theorem crawlLoop_fetchRecorded (w : Web) (domain : String) (maxPages maxDepth : Nat) :
    ∀ (fuel : Nat) (queue : List QueueItem) (visited : List String)
      (results : List PageResult),
      (∀ r ∈ results, fetchRecorded w r) →
      ∀ r ∈ crawlLoop w domain maxPages maxDepth fuel queue visited results,
        fetchRecorded w r := by
  intro fuel
  induction fuel with
  | zero =>
    intro queue visited results h1
    simpa [crawlLoop] using h1
  | succ fuel ih =>
    intro queue visited results h1
    cases queue with
    | nil => simpa [crawlLoop] using h1
    | cons item rest =>
      simp only [crawlLoop]
      by_cases hlen : results.length < maxPages
      · rw [if_pos hlen]
        by_cases hvis : item.url ∈ visited
        · rw [if_pos hvis]
          exact ih rest visited results h1
        · rw [if_neg hvis]
          rcases hfetch : w.fetch item.url with msg | resp
          · refine ih rest (item.url :: visited) (results ++ [errPage item msg]) ?_
            intro r hrm
            rcases List.mem_append.1 hrm with h | h
            · exact h1 r h
            · rw [List.mem_singleton.1 h]
              unfold fetchRecorded
              rw [show w.fetch (errPage item msg).url = Except.error msg from hfetch]
              exact ⟨rfl, rfl, rfl, rfl, rfl⟩
          · refine ih _ (item.url :: visited) _ ?_
            intro r hrm
            rcases List.mem_append.1 hrm with h | h
            · exact h1 r h
            · rw [List.mem_singleton.1 h]
              unfold fetchRecorded
              rw [show w.fetch (okPage item resp (extractState w domain item.url item.depth
                maxDepth (item.url :: visited) rest resp)).url = Except.ok resp from hfetch]
              exact ⟨rfl, rfl, rfl⟩
      · rw [if_neg hlen]
        exact h1

theorem crawlSite_none (w : Web) (startUrl : String) (maxPages maxDepth fuel : Nat)
    (hhost : w.hostOf startUrl = none) :
    crawlSite w startUrl maxPages maxDepth fuel = [] := by
  unfold crawlSite
  rw [hhost]

theorem crawlSite_some (w : Web) (startUrl domain : String) (maxPages maxDepth fuel : Nat)
    (hhost : w.hostOf startUrl = some domain) :
    crawlSite w startUrl maxPages maxDepth fuel =
      crawlLoop w domain maxPages maxDepth fuel [{ url := startUrl, depth := 0 }] [] [] := by
  unfold crawlSite
  rw [hhost]

/-! ## Crawler theorems -/

/-- C7: every crawl result is either the seed at depth 0 or was discovered
on a produced page whose depth is one less and strictly below `maxDepth`;
consequently no result exceeds depth `maxDepth`. -/
theorem C7_depth_policy (w : Web) (startUrl : String) (maxPages maxDepth fuel : Nat)
    (r : PageResult) (hr : r ∈ crawlSite w startUrl maxPages maxDepth fuel) :
    ((r.url = startUrl ∧ r.depth = 0) ∨
      ∃ p ∈ crawlSite w startUrl maxPages maxDepth fuel,
        r.url ∈ p.internalLinks ∧ r.depth = p.depth + 1 ∧ p.depth < maxDepth) ∧
    r.depth ≤ maxDepth := by
  rcases hhost : w.hostOf startUrl with _ | domain
  · rw [crawlSite_none w startUrl maxPages maxDepth fuel hhost] at hr
    simp at hr
  · rw [crawlSite_some w startUrl domain maxPages maxDepth fuel hhost] at hr ⊢
    have hp := crawlLoop_hasParent w domain startUrl maxPages maxDepth fuel
      [{ url := startUrl, depth := 0 }] [] []
      (by
        intro q hq
        rw [List.mem_singleton.1 hq]
        exact Or.inl ⟨rfl, rfl⟩)
      (by intro x hx; simp at hx)
      r hr
    refine ⟨hp, ?_⟩
    rcases hp with ⟨_, h0⟩ | ⟨p, _, _, hd, hlt⟩
    · omega
    · omega

/-- Witness for C7 on the depth-1 child page of a two-page site. -/
theorem C7_witness :
    ((c7ChildResult.url = "https://s.test/" ∧ c7ChildResult.depth = 0) ∨
      ∃ p ∈ crawlSite c7Web "https://s.test/" 20 2 5,
        c7ChildResult.url ∈ p.internalLinks ∧ c7ChildResult.depth = p.depth + 1 ∧
          p.depth < 2) ∧
    c7ChildResult.depth ≤ 2 :=
  C7_depth_policy c7Web "https://s.test/" 20 2 5 c7ChildResult (by decide)

/-- C5, corrected form: deduplication protects the crawl's result set — no
URL is ever fetched twice, so the result URLs are pairwise distinct — while
the per-page link lists may repeat a URL (see the counterexample). -/
theorem C5_result_urls_nodup (w : Web) (startUrl : String) (maxPages maxDepth fuel : Nat) :
    ((crawlSite w startUrl maxPages maxDepth fuel).map fun r => r.url).Nodup := by
  rcases hhost : w.hostOf startUrl with _ | domain
  · rw [crawlSite_none w startUrl maxPages maxDepth fuel hhost]
    simp
  · rw [crawlSite_some w startUrl domain maxPages maxDepth fuel hhost]
    exact crawlLoop_nodup w domain maxPages maxDepth fuel _ [] []
      (by simp) (by intro x hx; simp at hx)

/-- C5, as literally claimed, fails: a page with two anchors to the same
internal URL gets that URL twice in `internalLinks`. -/
theorem C5_counterexample :
    (crawlSite c5Web "https://s.test/" 1 2 3).map (fun r => r.internalLinks) =
      [["https://s.test/x", "https://s.test/x"]] ∧
    ¬ (∀ r ∈ crawlSite c5Web "https://s.test/" 1 2 3, r.internalLinks.Nodup) := by
  constructor
  · decide
  · decide

/-- C4, corrected form: a thrown fetch (network error/timeout) is recorded
as an empty-markup result with status 0 and a populated error, and never
aborts the crawl (a result is still produced); a received non-HTML response
is recorded with empty markup and the observed status code but NO error. -/
theorem C4_failure_recorded (w : Web) (startUrl : String) (maxPages maxDepth fuel : Nat)
    (r : PageResult) (hr : r ∈ crawlSite w startUrl maxPages maxDepth fuel) :
    (∀ msg, w.fetch r.url = Except.error msg →
      r.html = "" ∧ r.statusCode = 0 ∧ r.error = some msg) ∧
    (∀ resp, w.fetch r.url = Except.ok resp →
      r.error = none ∧ r.statusCode = resp.status ∧
        (¬ (resp.bodyIsString ∧ resp.contentTypeHtml) → r.html = "")) := by
  have hf : fetchRecorded w r := by
    rcases hhost : w.hostOf startUrl with _ | domain
    · rw [crawlSite_none w startUrl maxPages maxDepth fuel hhost] at hr
      simp at hr
    · rw [crawlSite_some w startUrl domain maxPages maxDepth fuel hhost] at hr
      exact crawlLoop_fetchRecorded w domain maxPages maxDepth fuel _ [] []
        (by intro x hx; simp at hx) r hr
  unfold fetchRecorded at hf
  constructor
  · intro msg hm
    rw [hm] at hf
    exact ⟨hf.1, hf.2.1, hf.2.2.1⟩
  · intro resp hm
    rw [hm] at hf
    refine ⟨hf.2.1, hf.1, ?_⟩
    intro hneg
    rw [hf.2.2, if_neg hneg]

/-- C4, as literally claimed, fails: a successful fetch with a non-HTML
content type yields a result with empty markup and the observed status code
but an UNPOPULATED error field. -/
theorem C4_counterexample :
    (∃ resp, c4Web.fetch "https://site.test/" = Except.ok resp ∧
      resp.contentTypeHtml = false) ∧
    crawlSite c4Web "https://site.test/" 20 2 5 =
      [{ url := "https://site.test/", statusCode := 200, html := "", depth := 0,
         internalLinks := [], externalLinks := [], error := none }] ∧
    (∀ r ∈ crawlSite c4Web "https://site.test/" 20 2 5, r.error = none) := by
  refine ⟨⟨_, rfl, rfl⟩, by decide, by decide⟩

/-- Witness for C4 on a crawl whose only fetch throws. -/
theorem C4_witness :
    (∀ msg, c4ErrWeb.fetch c4ErrResult.url = Except.error msg →
      c4ErrResult.html = "" ∧ c4ErrResult.statusCode = 0 ∧
        c4ErrResult.error = some msg) ∧
    (∀ resp, c4ErrWeb.fetch c4ErrResult.url = Except.ok resp →
      c4ErrResult.error = none ∧ c4ErrResult.statusCode = resp.status ∧
        (¬ (resp.bodyIsString ∧ resp.contentTypeHtml) → c4ErrResult.html = "")) :=
  C4_failure_recorded c4ErrWeb "https://site.test/err" 20 2 5 c4ErrResult (by decide)

/-! ## Performance-analyzer theorems -/

theorem mem_ite_singleton {α : Type} {P : Prop} [Decidable P] {x a : α} :
    x ∈ (if P then [a] else ([] : List α)) ↔ P ∧ x = a := by
  split <;> simp_all

theorem numTruthy_gt_iff (o : Option ℚ) (c : ℚ) (hc : 0 < c) :
    ((numTruthy o = true) ∧ o.getD 0 > c) ↔ ∃ v, o = some v ∧ c < v := by
  cases o with
  | none => simp [numTruthy]
  | some v =>
    simp only [numTruthy, Option.getD_some, decide_eq_true_eq]
    constructor
    · rintro ⟨h1, h2⟩
      exact ⟨v, rfl, h2⟩
    · rintro ⟨v2, he, h2⟩
      injection he with he2
      subst he2
      refine ⟨?_, h2⟩
      intro e
      rw [e] at h2
      linarith

/-- C6, corrected form: with external data available, the analyzer emits a
critical SLOW_LCP_MOBILE issue exactly when LCP exceeds 4000 ms, a major
HIGH_TBT issue exactly when total blocking time exceeds 600 ms, and a
critical POOR_PERFORMANCE_SCORE issue exactly when the rounded score is
below 50 — and nothing else: no 2.5-second LCP tier and no layout-shift
issue exist. -/
theorem C6_analyzer_thresholds (key url : String) (resp : PsiResponse) :
    ((∃ i ∈ (analyzePerformance (some key) (Except.ok resp) url).2,
        i.code = "SLOW_LCP_MOBILE" ∧ i.severity = Severity.critical) ↔
      (∃ v, resp.largestContentfulPaintMs = some v ∧ 4000 < v)) ∧
    ((∃ i ∈ (analyzePerformance (some key) (Except.ok resp) url).2,
        i.code = "HIGH_TBT" ∧ i.severity = Severity.major) ↔
      (∃ v, resp.totalBlockingTimeMs = some v ∧ 600 < v)) ∧
    ((∃ i ∈ (analyzePerformance (some key) (Except.ok resp) url).2,
        i.code = "POOR_PERFORMANCE_SCORE" ∧ i.severity = Severity.critical) ↔
      ((jsRound ((resp.perfScore.getD 0) * 100) : ℚ) < 50)) ∧
    (∀ i ∈ (analyzePerformance (some key) (Except.ok resp) url).2,
      i.code = "SLOW_LCP_MOBILE" ∨ i.code = "HIGH_TBT" ∨
        i.code = "POOR_PERFORMANCE_SCORE") := by
  unfold analyzePerformance
  rw [← numTruthy_gt_iff resp.largestContentfulPaintMs 4000 (by norm_num),
    ← numTruthy_gt_iff resp.totalBlockingTimeMs 600 (by norm_num)]
  by_cases hA : (numTruthy resp.largestContentfulPaintMs = true) ∧
      resp.largestContentfulPaintMs.getD 0 > 4000 <;>
    by_cases hB : (numTruthy resp.totalBlockingTimeMs = true) ∧
        resp.totalBlockingTimeMs.getD 0 > 600 <;>
      by_cases hC : ((jsRound ((resp.perfScore.getD 0) * 100) : ℤ) : ℚ) < 50 <;>
        simp [hA, hB, hC, createIssue]

/-- C6, as literally claimed, fails: a response with LCP of 3 s (between
2.5 s and 4 s) and a layout shift of 0.5 produces NO issue at all. -/
theorem C6_counterexample :
    (∃ v, c6Psi.largestContentfulPaintMs = some v ∧ 2500 < v ∧ v ≤ 4000) ∧
    (∃ v, c6Psi.cumulativeLayoutShift = some v ∧ 1 / 4 < v) ∧
    (analyzePerformance (some "key") (Except.ok c6Psi) "https://s.test/").2 = [] := by
  refine ⟨⟨3000, rfl, by norm_num, by norm_num⟩, ⟨1 / 2, rfl, by norm_num⟩, ?_⟩
  norm_num [analyzePerformance, c6Psi, numTruthy, jsRound]

end AuditForge
